import Mathlib

/-!
Verification of the metrics-aggregation and comparison scripts of the
3dgs-with-depth-strong-supervision repository.

The repository's scripts (compare_training.py, monitor_training.py,
run_comparison.py, test_gt_depth.py) are embedded shallowly:

* Python floats are modelled as rationals (`ℚ`); the claims under study are
  about the exact structure of the computations (which element is picked,
  which branch is taken, sign tests, division-by-zero conventions), all of
  which are faithfully captured at this level.
* Python dicts are modelled as association lists; a tensorboard scalar series
  is a list of (step, value) events.
* I/O effects (printing, writing files, launching subprocesses) are modelled
  by result records carrying the list of printed messages and booleans for
  each effect; an absent value (Python `None`) is `Option.none`.
-/

namespace DepthComparison

/-- A tensorboard scalar series: the ordered list of (step, value) events of
one tag, as returned by `ea.Scalars(tag)` in the scripts. -/
abbrev Series := List (Int × ℚ)

/-- The values list of a series (Python: `data[tag]['values']`). -/
def Series.values (s : Series) : List ℚ := s.map Prod.snd

/-- The steps list of a series (Python: `data[tag]['steps']`). -/
def Series.steps (s : Series) : List Int := s.map Prod.fst

/-- A metric snapshot: the mapping from metric name to scalar series produced
by one load of one log directory (the `data` dict of
`extract_tensorboard_data`). -/
abbrev Snapshot := List (String × Series)

/-- Last element of a list of rationals, with Python's `values[-1]` semantics;
only ever used under a non-emptiness guard (Python raises on `[][-1]`). -/
def lastVal : List ℚ → ℚ
  | [] => 0
  | [x] => x
  | _ :: y :: t => lastVal (y :: t)

/-- Python `min(values)` over a non-empty list (returns 0 on `[]`, a case the
scripts never reach because of their non-emptiness guards). -/
def listMin : List ℚ → ℚ
  | [] => 0
  | x :: xs => xs.foldl min x

/-- Python `max(values)` over a non-empty list. -/
def listMax : List ℚ → ℚ
  | [] => 0
  | x :: xs => xs.foldl max x

/-- Python `np.mean(values)`: arithmetic mean. -/
def listMean (l : List ℚ) : ℚ := l.sum / l.length

/-- The square of Python `np.std(values)` (population variance).  `np.std`
itself is the square root of this quantity, which is irrational in general;
no claim refers to the standard deviation, so the summary record stores the
variance instead. -/
def listVarPop (l : List ℚ) : ℚ :=
  (l.map (fun x => (x - listMean l) ^ 2)).sum / l.length

/-- Boolean test for `needle` being equal to the first `needle.length`
characters of `hay`. -/
def leadsWith (needle hay : List Char) : Bool :=
  needle == hay.take needle.length

/-- Boolean substring test on character lists (Python `needle in hay`). -/
def hasSub (needle : List Char) : List Char → Bool
  | [] => needle.isEmpty
  | c :: t => leadsWith needle (c :: t) || hasSub needle t

/-- Python's substring containment `needle in hay` on strings. -/
def containsSub (needle hay : String) : Bool :=
  hasSub needle.data hay.data

/-- Per-side summary record built by `compute_statistics` for one metric with
a non-empty series (compare_training.py lines 125-132 and 138-145).  The
`std_value` of the script is `Real.sqrt std_sq_value`; see `listVarPop`. -/
structure SummaryStats where
  final_value : ℚ
  min_value : ℚ
  max_value : ℚ
  mean_value : ℚ
  std_sq_value : ℚ
  total_iterations : ℕ
  deriving Repr, DecidableEq

/-- Pairwise comparison record built by `compute_statistics` for one metric
present with non-empty series on both sides (compare_training.py
lines 152-160). -/
structure Comparison where
  absolute_improvement : ℚ
  relative_improvement_percent : ℚ
  strong_better : Bool
  deriving Repr, DecidableEq

/-- The fixed list of five metric names analysed by `compute_statistics`
(compare_training.py lines 108-114). -/
def metrics_to_analyze : List String :=
  ["train_loss_patches/total_loss",
   "train_loss_patches/l1_loss",
   "train/loss_viewpoint - l1_loss",
   "train/loss_viewpoint - psnr",
   "total_points"]

/-- The summary statistics of one non-empty values list, exactly the dict
built at compare_training.py lines 125-132. -/
def summaryOf (vs : List ℚ) : SummaryStats :=
  { final_value := lastVal vs
    min_value := listMin vs
    max_value := listMax vs
    mean_value := listMean vs
    std_sq_value := listVarPop vs
    total_iterations := vs.length }

/-- The comparison dict built at compare_training.py lines 153-160:
`final_improvement = values_s[-1] - values_w[-1]`,
`relative_improvement = final_improvement / values_w[-1] * 100` guarded by
`values_w[-1] != 0` (else 0), and
`strong_better = final_improvement > 0 if 'psnr' in metric else
final_improvement < 0`. -/
def comparisonOf (metric : String) (values_w values_s : List ℚ) : Comparison :=
  let final_improvement := lastVal values_s - lastVal values_w
  { absolute_improvement := final_improvement
    relative_improvement_percent :=
      if lastVal values_w ≠ 0 then final_improvement / lastVal values_w * 100 else 0
    strong_better :=
      if containsSub "psnr" metric then decide (final_improvement > 0)
      else decide (final_improvement < 0) }

/-- Python truthiness of an optional snapshot: `not weak_data` is true when
the reader returned `None` or an empty dict. -/
def pyFalsy (d : Option Snapshot) : Bool :=
  match d with
  | none => true
  | some s => s.isEmpty

/-- The guard `weak_data and metric in weak_data` of compare_training.py
(an empty dict is falsy and also contains no key, so the guard is equivalent
to key membership in a present snapshot). -/
def metricPresent (d : Option Snapshot) (m : String) : Bool :=
  match d with
  | none => false
  | some s => (s.lookup m).isSome

/-- The combined guard for a populated per-side summary: the snapshot is
present, holds the metric, and the metric's values list is non-empty
(compare_training.py lines 122-124). -/
def metricNonEmpty (d : Option Snapshot) (m : String) : Bool :=
  match d with
  | none => false
  | some s =>
    match s.lookup m with
    | none => false
    | some ser => !ser.isEmpty

/-- The per-side branch of `compute_statistics` for one metric: the entry
stays the empty dict (`none`) unless the side has a non-empty series for the
metric (compare_training.py lines 117, 122-132). -/
def sideStats (d : Option Snapshot) (m : String) : Option SummaryStats :=
  match d with
  | none => none
  | some s =>
    match s.lookup m with
    | none => none
    | some ser => if ser.isEmpty then none else some (summaryOf ser.values)

/-- The comparison branch of `compute_statistics` for one metric: the entry
stays the empty dict (`none`) unless both sides hold the metric with a
non-empty values list (compare_training.py lines 148-160). -/
def compRec (weak strong : Option Snapshot) (m : String) : Option Comparison :=
  match weak, strong with
  | some w, some s =>
    match w.lookup m, s.lookup m with
    | some wser, some sser =>
      if wser.isEmpty || sser.isEmpty then none
      else some (comparisonOf m wser.values sser.values)
    | some _, none => none
    | none, some _ => none
    | none, none => none
  | some _, none => none
  | none, some _ => none
  | none, none => none

/-- The three-part statistics record serialized to
`comparison_summary.json`: the `stats` dict of `compute_statistics` with its
three fixed top-level keys; each section maps every analysed metric name to
its record, `none` standing for the empty dict `{}`. -/
structure Stats where
  weak_supervision : List (String × Option SummaryStats)
  strong_supervision : List (String × Option SummaryStats)
  comparison : List (String × Option Comparison)
  deriving Repr, DecidableEq

/-- The `compute_statistics` function of compare_training.py (lines 97-181):
for every metric of the fixed list it sets all three per-metric entries,
empty by default and populated under the guards modelled by `sideStats` and
`compRec`. -/
def compute_statistics (weak_data strong_data : Option Snapshot) : Stats :=
  { weak_supervision := metrics_to_analyze.map (fun m => (m, sideStats weak_data m))
    strong_supervision := metrics_to_analyze.map (fun m => (m, sideStats strong_data m))
    comparison := metrics_to_analyze.map (fun m => (m, compRec weak_data strong_data m)) }

/-- The metrics printed in the final summary table of `compute_statistics`
(lines 171-177): a metric is printed iff its comparison entry exists and is a
non-empty dict. -/
def printedMetrics (st : Stats) : List String :=
  metrics_to_analyze.filter (fun m =>
    match st.comparison.lookup m with
    | some (some _) => true
    | some none => false
    | none => false)

/-- The top-level key names of the serialized statistics record, in the order
of the dict literal at compare_training.py lines 101-105. -/
def summarySections (st : Stats) : List (String × List String) :=
  [("weak_supervision", st.weak_supervision.map Prod.fst),
   ("strong_supervision", st.strong_supervision.map Prod.fst),
   ("comparison", st.comparison.map Prod.fst)]

/-- The `extract_tensorboard_data` function of compare_training.py
(lines 14-47), abstracted over its environment: `tb` is whether the
tensorboard library imports, and `dirData` is the scalar data of the most
recently modified event file under `logdir` (`none` when no
`events.out.tfevents.*` file exists there).  The result pairs the returned
value (`None` or the data dict) with the list of printed messages. -/
def extract_tensorboard_data (tb : Bool) (logdir : String)
    (dirData : Option Snapshot) : Option Snapshot × List String :=
  if !tb then
    (none, ["Please install tensorboard: pip install tensorboard"])
  else
    match dirData with
    | none => (none, ["No tensorboard files found in " ++ logdir])
    | some d => (some d, ["Loading tensorboard data from: " ++ logdir])

/-- The latest-metric record of monitor_training.py lines 35-39. -/
structure LatestMetric where
  latest_step : Int
  latest_value : ℚ
  total_points : ℕ
  deriving Repr, DecidableEq

/-- The fixed allow-list of tags of monitor_training.py lines 30-31. -/
def monitorTags : List String :=
  ["train_loss_patches/total_loss",
   "train_loss_patches/l1_loss",
   "test/loss_viewpoint - psnr",
   "total_points"]

/-- The `get_latest_metrics` function of monitor_training.py (lines 13-46),
abstracted like `extract_tensorboard_data`.  Note its error handling: the
whole body sits in a `try` whose only handler is `except ImportError: pass`,
so an unavailable tensorboard library yields `None` with NO message printed;
an absent event file also yields `None` silently. -/
def get_latest_metrics (tb : Bool) (dirData : Option Snapshot) :
    Option (List (String × LatestMetric)) × List String :=
  if tb then
    match dirData with
    | none => (none, [])
    | some d =>
      (some (monitorTags.filterMap (fun tag =>
        match d.lookup tag with
        | none => none
        | some ser =>
          match ser.getLast? with
          | none => none
          | some ev =>
            some (tag, { latest_step := ev.1
                         latest_value := ev.2
                         total_points := ser.length }))), [])
  else (none, [])

/-- Result record of one run of the Comparator's `main` (compare_training.py
lines 183-208): which notices were printed and which artifacts were
produced.  `summaryWritten` is true exactly when `compute_statistics` ran
(it is the function that writes `comparison_summary.json`);
`plotDrawn` is true exactly when `plot_comparison` ran. -/
structure CompareRun where
  messages : List String
  noDataNotice : Bool
  plotDrawn : Bool
  summaryWritten : Bool
  stats : Option Stats
  deriving Repr, DecidableEq

/-- The Comparator's `main` (compare_training.py lines 183-208): extract both
directories, and on `not weak_data and not strong_data` print the no-data
notice and return BEFORE creating the output directory, plotting, or writing
the summary; otherwise plot and compute/write statistics. -/
def compare_main (tb : Bool) (weakDir strongDir : Option Snapshot) : CompareRun :=
  let w := extract_tensorboard_data tb "weak" weakDir
  let s := extract_tensorboard_data tb "strong" strongDir
  if pyFalsy w.1 && pyFalsy s.1 then
    { messages := w.2 ++ s.2 ++ ["No tensorboard data found in either directory!"]
      noDataNotice := true
      plotDrawn := false
      summaryWritten := false
      stats := none }
  else
    { messages := w.2 ++ s.2
      noDataNotice := false
      plotDrawn := true
      summaryWritten := true
      stats := some (compute_statistics w.1 s.1) }

/-- Result record of the Run Orchestrator's `main` (run_comparison.py
lines 106-128): the printed messages and whether
`run_training_comparison` (which launches the two subprocesses) was
invoked. -/
structure OrchRun where
  messages : List String
  launched : Bool
  deriving Repr, DecidableEq

/-- The Run Orchestrator's `main` (run_comparison.py lines 106-128),
abstracted over path existence: each of the three required paths is checked
in turn with `os.path.exists`; the first missing one is reported and the
function returns without launching anything. -/
def orchestrator_main (sceneExists depthExists gtExists : Bool)
    (scene depth_images gt_depth : String) : OrchRun :=
  if !sceneExists then
    { messages := ["Scene path does not exist: " ++ scene], launched := false }
  else if !depthExists then
    { messages := ["Depth images path does not exist: " ++ depth_images], launched := false }
  else if !gtExists then
    { messages := ["GT depth path does not exist: " ++ gt_depth], launched := false }
  else
    { messages := [], launched := true }

/-- Modelled from the spec: the nine GT-depth options of the external
trainer's `OptimizationParams` group.  The module `arguments` that declares
them is not part of this excerpt (only its caller test_gt_depth.py is), so
the record follows the spec's list of recognized options. -/
structure OptimizationParams where
  depth_dir : String
  depth_format : String
  depth_units : String
  depth_weight : ℚ
  depth_loss : String
  depth_grad_weight : ℚ
  depth_warmup : Int
  depth_valid_min : ℚ
  depth_valid_max : ℚ
  deriving Repr, DecidableEq

/-- Modelled from the spec: the documented defaults of the nine options
(`depth_dir=""`, `depth_format="png16"`, `depth_units="meters"`,
`depth_weight=2.0`, `depth_loss="huber"`, `depth_grad_weight=0.1`,
`depth_warmup=2000`, `depth_valid_min=1e-4`, `depth_valid_max=80.0`). -/
def defaultOptimizationParams : OptimizationParams :=
  { depth_dir := ""
    depth_format := "png16"
    depth_units := "meters"
    depth_weight := 2
    depth_loss := "huber"
    depth_grad_weight := 1 / 10
    depth_warmup := 2000
    depth_valid_min := 1 / 10000
    depth_valid_max := 80 }

/-- A run of decimal digits as a natural number, `none` if empty or not all
digits. -/
def digitsToNat (l : List Char) : Option ℕ :=
  if l.isEmpty then none
  else if l.all Char.isDigit then
    some (l.foldl (fun acc c => acc * 10 + (c.toNat - 48)) 0)
  else none

/-- Split a character list at its first dot. -/
def splitDot : List Char → List Char × Option (List Char)
  | [] => ([], none)
  | '.' :: t => ([], some t)
  | c :: t =>
    let r := splitDot t
    (c :: r.1, r.2)

/-- An unsigned decimal literal (`digits` or `digits.digits`) as a rational. -/
def parseUnsignedDec (l : List Char) : Option ℚ :=
  match splitDot l with
  | (ip, none) => (digitsToNat ip).map (fun n => (n : ℚ))
  | (ip, some fp) =>
    match digitsToNat ip, digitsToNat fp with
    | some n, some f => some ((n : ℚ) + (f : ℚ) / (10 : ℚ) ^ fp.length)
    | some _, none => none
    | none, some _ => none
    | none, none => none

/-- A Python `float(...)` argument literal (optional leading minus), as a
rational; covers the literals used by the contract check. -/
def parsePyFloat (s : String) : Option ℚ :=
  match s.data with
  | '-' :: rest => (parseUnsignedDec rest).map Neg.neg
  | l => parseUnsignedDec l

/-- A Python `int(...)` argument literal (optional leading minus). -/
def parsePyInt (s : String) : Option Int :=
  match s.data with
  | '-' :: rest => (digitsToNat rest).map (fun n => -(n : Int))
  | l => (digitsToNat l).map (fun n => (n : Int))

/-- Modelled from the spec: consume one `--flag value` pair of the argparse
surface, updating the matching field with the value parsed at the field's
type; unknown flags or unparsable values fail. -/
def applyDepthFlag (ps : OptimizationParams) (flag v : String) :
    Option OptimizationParams :=
  if flag = "--depth_dir" then some { ps with depth_dir := v }
  else if flag = "--depth_format" then some { ps with depth_format := v }
  else if flag = "--depth_units" then some { ps with depth_units := v }
  else if flag = "--depth_weight" then
    (parsePyFloat v).map (fun q => { ps with depth_weight := q })
  else if flag = "--depth_loss" then some { ps with depth_loss := v }
  else if flag = "--depth_grad_weight" then
    (parsePyFloat v).map (fun q => { ps with depth_grad_weight := q })
  else if flag = "--depth_warmup" then
    (parsePyInt v).map (fun n => { ps with depth_warmup := n })
  else if flag = "--depth_valid_min" then
    (parsePyFloat v).map (fun q => { ps with depth_valid_min := q })
  else if flag = "--depth_valid_max" then
    (parsePyFloat v).map (fun q => { ps with depth_valid_max := q })
  else none

/-- Modelled from the spec: `parser.parse_args(tokens)` restricted to the
nine depth options — fold the token list as `--flag value` pairs over the
defaults. -/
def parse_args : List String → OptimizationParams → Option OptimizationParams
  | [], ps => some ps
  | [_], _ => none
  | f :: v :: rest, ps =>
    match applyDepthFlag ps f v with
    | some ps2 => parse_args rest ps2
    | none => none

/-- Modelled from the spec: `op.extract(args)` copies the recognized group
fields off the parsed namespace; on this record it is the identity. -/
def op_extract (p : OptimizationParams) : OptimizationParams := p

/-- The literal override list of test_gt_depth.py lines 54-64. -/
def test_args_custom : List String :=
  ["--depth_dir", "/path/to/depths",
   "--depth_format", "exr",
   "--depth_units", "millimeters",
   "--depth_weight", "3.0",
   "--depth_loss", "l1",
   "--depth_grad_weight", "0.2",
   "--depth_warmup", "1000",
   "--depth_valid_min", "0.1",
   "--depth_valid_max", "100.0"]

/-- The expected parse of the override list (test_gt_depth.py
lines 69-77). -/
def customOptimizationParams : OptimizationParams :=
  { depth_dir := "/path/to/depths"
    depth_format := "exr"
    depth_units := "millimeters"
    depth_weight := 3
    depth_loss := "l1"
    depth_grad_weight := 1 / 5
    depth_warmup := 1000
    depth_valid_min := 1 / 10
    depth_valid_max := 100 }

/-- The default-value assertions of test_gt_depth.py lines 41-49, as a check
returning the message of the first failing assertion.  (The preceding
`hasattr` assertions of lines 30-38 hold by construction here: the record
type has all nine fields.)  Each message is the f-string of the source
assertion; the value interpolation is rendered with `toString`. -/
def check_default_values (opt : OptimizationParams) : Except String Unit :=
  if opt.depth_dir ≠ "" then
    Except.error ("Expected empty string, got " ++ opt.depth_dir)
  else if opt.depth_format ≠ "png16" then
    Except.error ("Expected png16, got " ++ opt.depth_format)
  else if opt.depth_units ≠ "meters" then
    Except.error ("Expected meters, got " ++ opt.depth_units)
  else if opt.depth_weight ≠ 2 then
    Except.error ("Expected 2.0, got " ++ toString opt.depth_weight)
  else if opt.depth_loss ≠ "huber" then
    Except.error ("Expected huber, got " ++ opt.depth_loss)
  else if opt.depth_grad_weight ≠ 1 / 10 then
    Except.error ("Expected 0.1, got " ++ toString opt.depth_grad_weight)
  else if opt.depth_warmup ≠ 2000 then
    Except.error ("Expected 2000, got " ++ toString opt.depth_warmup)
  else if opt.depth_valid_min ≠ 1 / 10000 then
    Except.error ("Expected 1e-4, got " ++ toString opt.depth_valid_min)
  else if opt.depth_valid_max ≠ 80 then
    Except.error ("Expected 80.0, got " ++ toString opt.depth_valid_max)
  else Except.ok ()

/-- The override-value assertions of test_gt_depth.py lines 69-77.  These are
BARE `assert` statements: a failing one raises `AssertionError` with an
empty message, naming nothing. -/
def check_custom_values (opt : OptimizationParams) : Except String Unit :=
  if opt.depth_dir ≠ "/path/to/depths" then Except.error ""
  else if opt.depth_format ≠ "exr" then Except.error ""
  else if opt.depth_units ≠ "millimeters" then Except.error ""
  else if opt.depth_weight ≠ 3 then Except.error ""
  else if opt.depth_loss ≠ "l1" then Except.error ""
  else if opt.depth_grad_weight ≠ 1 / 5 then Except.error ""
  else if opt.depth_warmup ≠ 1000 then Except.error ""
  else if opt.depth_valid_min ≠ 1 / 10 then Except.error ""
  else if opt.depth_valid_max ≠ 100 then Except.error ""
  else Except.ok ()

/-- The `test_gt_depth_args` flow of test_gt_depth.py lines 14-79 over the
modelled parser: parse an empty list, check the defaults, parse the override
list, check the overrides; the first failing assertion's message is
returned. -/
def test_gt_depth_args : Except String Unit :=
  match parse_args [] defaultOptimizationParams with
  | none => Except.error "failed to parse the empty argument list"
  | some a =>
    match check_default_values (op_extract a) with
    | Except.error e => Except.error e
    | Except.ok _ =>
      match parse_args test_args_custom defaultOptimizationParams with
      | none => Except.error "failed to parse the custom argument list"
      | some b => check_custom_values (op_extract b)

/-! ### Helper lemmas -/

/-- Looking up a key of the list in an association list built by tagging each
key with a function value returns the function value. -/
theorem lookup_map_self {β : Type} (f : String → β) :
    ∀ (l : List String) (m : String), m ∈ l →
      (l.map (fun x => (x, f x))).lookup m = some (f m) := by
  intro l
  induction l with
  | nil => intro m hm; cases hm
  | cons a t ih =>
    intro m hm
    by_cases h : m = a
    · subst h
      simp [List.lookup]
    · have hmt : m ∈ t := by
        rcases List.mem_cons.mp hm with h1 | h1
        · exact absurd h1 h
        · exact h1
      have hb : (m == a) = false := beq_eq_false_iff_ne.mpr h
      simp [List.lookup, hb, ih m hmt]

/-- The keys of such a tagged association list are the original list. -/
theorem map_fst_map_self {β : Type} (f : String → β) (l : List String) :
    (l.map (fun x => (x, f x))).map Prod.fst = l := by
  induction l with
  | nil => rfl
  | cons a t ih => simp [ih]

theorem foldl_min_le_init : ∀ (l : List ℚ) (x : ℚ), l.foldl min x ≤ x
  | [], x => le_refl x
  | a :: t, x => le_trans (foldl_min_le_init t (min x a)) (min_le_left x a)

theorem foldl_min_le_mem : ∀ (l : List ℚ) (x y : ℚ), y ∈ l → l.foldl min x ≤ y
  | [], _, y, hy => absurd hy (List.not_mem_nil y)
  | a :: t, x, y, hy => by
    rcases List.mem_cons.mp hy with h | h
    · subst h
      exact le_trans (foldl_min_le_init t (min x y)) (min_le_right x y)
    · exact foldl_min_le_mem t (min x a) y h

theorem foldl_min_mem : ∀ (l : List ℚ) (x : ℚ), l.foldl min x ∈ x :: l
  | [], x => List.mem_singleton.mpr rfl
  | a :: t, x => by
    have h := foldl_min_mem t (min x a)
    have hfold : (a :: t).foldl min x = t.foldl min (min x a) := rfl
    rw [hfold]
    rcases List.mem_cons.mp h with h1 | h1
    · rcases min_choice x a with h2 | h2
      · rw [h1, h2]; exact List.mem_cons_self x (a :: t)
      · rw [h1, h2]
        exact List.mem_cons_of_mem x (List.mem_cons_self a t)
    · exact List.mem_cons_of_mem x (List.mem_cons_of_mem a h1)

theorem init_le_foldl_max : ∀ (l : List ℚ) (x : ℚ), x ≤ l.foldl max x
  | [], x => le_refl x
  | a :: t, x => le_trans (le_max_left x a) (init_le_foldl_max t (max x a))

theorem mem_le_foldl_max : ∀ (l : List ℚ) (x y : ℚ), y ∈ l → y ≤ l.foldl max x
  | [], _, y, hy => absurd hy (List.not_mem_nil y)
  | a :: t, x, y, hy => by
    rcases List.mem_cons.mp hy with h | h
    · subst h
      exact le_trans (le_max_right x y) (init_le_foldl_max t (max x y))
    · exact mem_le_foldl_max t (max x a) y h

theorem foldl_max_mem : ∀ (l : List ℚ) (x : ℚ), l.foldl max x ∈ x :: l
  | [], x => List.mem_singleton.mpr rfl
  | a :: t, x => by
    have h := foldl_max_mem t (max x a)
    have hfold : (a :: t).foldl max x = t.foldl max (max x a) := rfl
    rw [hfold]
    rcases List.mem_cons.mp h with h1 | h1
    · rcases max_choice x a with h2 | h2
      · rw [h1, h2]; exact List.mem_cons_self x (a :: t)
      · rw [h1, h2]
        exact List.mem_cons_of_mem x (List.mem_cons_self a t)
    · exact List.mem_cons_of_mem x (List.mem_cons_of_mem a h1)

/-- `listMin` of a non-empty list is an element of the list. -/
theorem listMin_mem : ∀ (l : List ℚ), l ≠ [] → listMin l ∈ l
  | [], h => absurd rfl h
  | _ :: _, _ => foldl_min_mem _ _

/-- `listMin` of a list is a lower bound of its elements. -/
theorem listMin_le : ∀ (l : List ℚ) (y : ℚ), y ∈ l → listMin l ≤ y
  | [], y, hy => absurd hy (List.not_mem_nil y)
  | x :: xs, y, hy => by
    rcases List.mem_cons.mp hy with h | h
    · subst h; exact foldl_min_le_init xs y
    · exact foldl_min_le_mem xs x y h

/-- `listMax` of a non-empty list is an element of the list. -/
theorem listMax_mem : ∀ (l : List ℚ), l ≠ [] → listMax l ∈ l
  | [], h => absurd rfl h
  | _ :: _, _ => foldl_max_mem _ _

/-- `listMax` of a list is an upper bound of its elements. -/
theorem le_listMax : ∀ (l : List ℚ) (y : ℚ), y ∈ l → y ≤ listMax l
  | [], y, hy => absurd hy (List.not_mem_nil y)
  | x :: xs, y, hy => by
    rcases List.mem_cons.mp hy with h | h
    · subst h; exact init_le_foldl_max xs y
    · exact mem_le_foldl_max xs x y h

/-- `lastVal` agrees with `List.getLast?` on non-empty lists. -/
theorem lastVal_getLast : ∀ (l : List ℚ), l ≠ [] → l.getLast? = some (lastVal l)
  | [], h => absurd rfl h
  | [_], _ => rfl
  | x :: y :: t, _ => by
    rw [List.getLast?_cons_cons]
    exact lastVal_getLast (y :: t) (by simp)

/-- The arithmetic-mean identity: over a non-empty list, the mean times the
length is the sum. -/
theorem listMean_mul_length (l : List ℚ) (h : l ≠ []) :
    listMean l * (l.length : ℚ) = l.sum := by
  have h0 : l.length ≠ 0 := fun hc => h (List.length_eq_zero.mp hc)
  have hl : (l.length : ℚ) ≠ 0 := Nat.cast_ne_zero.mpr h0
  rw [listMean, div_mul_cancel₀ _ hl]

/-- A side summary stays the empty dict exactly when the side has no
non-empty series for the metric. -/
theorem sideStats_eq_none (d : Option Snapshot) (m : String)
    (h : metricNonEmpty d m = false) : sideStats d m = none := by
  cases d with
  | none => rfl
  | some s =>
    cases hl : s.lookup m with
    | none => simp [sideStats, hl]
    | some ser =>
      simp only [metricNonEmpty, hl, Bool.not_eq_eq_eq_not, Bool.not_false] at h
      simp [sideStats, hl, h]

/-- A side summary is populated exactly from a present non-empty series. -/
theorem sideStats_eq_some (s : Snapshot) (m : String) (ser : Series)
    (hl : s.lookup m = some ser) (hne : ser ≠ []) :
    sideStats (some s) m = some (summaryOf ser.values) := by
  simp [sideStats, hl, List.isEmpty_iff, hne]

/-- The comparison entry for a metric with a present non-empty series on
both sides. -/
theorem compRec_eq_some (w s : Snapshot) (m : String) (wser sser : Series)
    (hw : w.lookup m = some wser) (hs : s.lookup m = some sser)
    (hwne : wser ≠ []) (hsne : sser ≠ []) :
    compRec (some w) (some s) m = some (comparisonOf m wser.values sser.values) := by
  simp [compRec, hw, hs, List.isEmpty_iff, hwne, hsne]

/-- The comparison entry stays the empty dict when either side lacks a
non-empty series for the metric. -/
theorem compRec_eq_none (weak strong : Option Snapshot) (m : String)
    (h : metricNonEmpty weak m = false ∨ metricNonEmpty strong m = false) :
    compRec weak strong m = none := by
  cases weak with
  | none => cases strong <;> rfl
  | some w =>
    cases strong with
    | none => rfl
    | some s =>
      cases hw : w.lookup m with
      | none => cases hs : s.lookup m <;> simp [compRec, hw, hs]
      | some wser =>
        cases hs : s.lookup m with
        | none => simp [compRec, hw, hs]
        | some sser =>
          simp only [metricNonEmpty, hw, hs, Bool.not_eq_eq_eq_not,
            Bool.not_false] at h
          rcases h with h | h
          · simp [compRec, hw, hs, h]
          · simp [compRec, hw, hs, h]

/-- A metric absent from a side has in particular no non-empty series
there. -/
theorem metricNonEmpty_of_not_present (d : Option Snapshot) (m : String)
    (h : metricPresent d m = false) : metricNonEmpty d m = false := by
  cases d with
  | none => rfl
  | some s =>
    cases hl : s.lookup m with
    | none => simp [metricNonEmpty, hl]
    | some ser => simp [metricPresent, hl] at h

/-- A metric whose comparison entry is the empty dict is skipped by the
summary printout. -/
theorem not_printed_of_comp_none (st : Stats) (m : String)
    (h : st.comparison.lookup m = some none) : m ∉ printedMetrics st := by
  intro hm
  have := (List.mem_filter.mp hm).2
  rw [h] at this
  cases this

/-- A needle is a substring of any string extending it on the left:
char-list version. -/
theorem leadsWith_self (n : List Char) : leadsWith n n = true := by
  simp [leadsWith, List.take_length]

theorem hasSub_append_self (n : List Char) : ∀ h : List Char, hasSub n (h ++ n) = true
  | [] => by
    cases n with
    | nil => rfl
    | cons c t => simp [hasSub, leadsWith_self]
  | c :: h => by simp [hasSub, hasSub_append_self n h]

/-- A string contains itself as a substring of any left-extension. -/
theorem containsSub_append_self (p pre : String) :
    containsSub p (pre ++ p) = true := by
  have : (pre ++ p).data = pre.data ++ p.data := String.data_append pre p
  rw [containsSub, this]
  exact hasSub_append_self p.data pre.data

/-! ### Claims -/

/-- C1: for every metric with a non-empty series on both sides, the
comparison record has `absolute_improvement` = strong final − weak final and
`relative_improvement_percent` = absolute improvement / weak final × 100,
except 0 when the weak final is exactly 0; in particular for weak final 0
and strong final 5 on a non-PSNR metric the record is (absolute 5,
relative 0, strong_better false). -/
theorem C1_comparison_improvement_fields
    (w s : Snapshot) (m : String) (wser sser : Series)
    (hm : m ∈ metrics_to_analyze)
    (hw : w.lookup m = some wser) (hs : s.lookup m = some sser)
    (hwne : wser ≠ []) (hsne : sser ≠ []) :
    ∃ c : Comparison,
      (compute_statistics (some w) (some s)).comparison.lookup m = some (some c) ∧
      c.absolute_improvement = lastVal sser.values - lastVal wser.values ∧
      (lastVal wser.values ≠ 0 →
        c.relative_improvement_percent =
          c.absolute_improvement / lastVal wser.values * 100) ∧
      (lastVal wser.values = 0 → c.relative_improvement_percent = 0) ∧
      (lastVal wser.values = 0 → lastVal sser.values = 5 →
        containsSub "psnr" m = false →
        c.absolute_improvement = 5 ∧ c.relative_improvement_percent = 0 ∧
        c.strong_better = false) := by
  refine ⟨comparisonOf m wser.values sser.values, ?_, rfl, ?_, ?_, ?_⟩
  · unfold compute_statistics
    rw [lookup_map_self _ _ _ hm,
      compRec_eq_some w s m wser sser hw hs hwne hsne]
  · intro h
    simp [comparisonOf, h]
  · intro h
    simp [comparisonOf, h]
  · intro h0 h5 hp
    refine ⟨?_, ?_, ?_⟩ <;> norm_num [comparisonOf, h0, h5, hp]

/-- C1 witness: the concrete weak-final-0 / strong-final-5 instance on the
non-PSNR metric `train_loss_patches/total_loss`. -/
theorem C1_comparison_improvement_fields_witness :
    ∃ c : Comparison,
      (compute_statistics (some [("train_loss_patches/total_loss", [(1, 0)])])
          (some [("train_loss_patches/total_loss", [(1, 5)])])).comparison.lookup
        "train_loss_patches/total_loss" = some (some c) ∧
      c.absolute_improvement = 5 ∧ c.relative_improvement_percent = 0 ∧
      c.strong_better = false := by
  obtain ⟨c, hc, _, _, _, hinst⟩ :=
    C1_comparison_improvement_fields
      [("train_loss_patches/total_loss", [(1, 0)])]
      [("train_loss_patches/total_loss", [(1, 5)])]
      "train_loss_patches/total_loss" [(1, 0)] [(1, 5)]
      (by decide) (by decide) (by decide) (by decide) (by decide)
  obtain ⟨h1, h2, h3⟩ := hinst (by decide) (by decide) (by decide)
  exact ⟨c, hc, h1, h2, h3⟩

/-- C2: the `strong_better` flag is true exactly when the absolute
improvement is negative, with the sign test inverted (positive) when the
metric name contains the substring "psnr". -/
theorem C2_strong_better_sign
    (w s : Snapshot) (m : String) (wser sser : Series)
    (hm : m ∈ metrics_to_analyze)
    (hw : w.lookup m = some wser) (hs : s.lookup m = some sser)
    (hwne : wser ≠ []) (hsne : sser ≠ []) :
    ∃ c : Comparison,
      (compute_statistics (some w) (some s)).comparison.lookup m = some (some c) ∧
      c.absolute_improvement = lastVal sser.values - lastVal wser.values ∧
      (containsSub "psnr" m = false →
        (c.strong_better = true ↔ c.absolute_improvement < 0)) ∧
      (containsSub "psnr" m = true →
        (c.strong_better = true ↔ 0 < c.absolute_improvement)) := by
  refine ⟨comparisonOf m wser.values sser.values, ?_, rfl, ?_, ?_⟩
  · unfold compute_statistics
    rw [lookup_map_self _ _ _ hm,
      compRec_eq_some w s m wser sser hw hs hwne hsne]
  · intro h
    simp [comparisonOf, h]
  · intro h
    simp [comparisonOf, h]

/-- C2 witness: weak final 10 / strong final 8 on the non-PSNR metric
`train_loss_patches/total_loss` gives strong_better true, and weak final 20 /
strong final 25 on `train/loss_viewpoint - psnr` gives strong_better
true. -/
theorem C2_strong_better_sign_witness :
    (∃ c : Comparison,
      (compute_statistics (some [("train_loss_patches/total_loss", [(1, 10)])])
          (some [("train_loss_patches/total_loss", [(1, 8)])])).comparison.lookup
        "train_loss_patches/total_loss" = some (some c) ∧
      c.strong_better = true) ∧
    (∃ c : Comparison,
      (compute_statistics (some [("train/loss_viewpoint - psnr", [(1, 20)])])
          (some [("train/loss_viewpoint - psnr", [(1, 25)])])).comparison.lookup
        "train/loss_viewpoint - psnr" = some (some c) ∧
      c.strong_better = true) := by
  constructor
  · obtain ⟨c, hc, habs, hneg, _⟩ :=
      C2_strong_better_sign
        [("train_loss_patches/total_loss", [(1, 10)])]
        [("train_loss_patches/total_loss", [(1, 8)])]
        "train_loss_patches/total_loss" [(1, 10)] [(1, 8)]
        (by decide) (by decide) (by decide) (by decide) (by decide)
    refine ⟨c, hc, (hneg (by decide)).mpr ?_⟩
    rw [habs]
    norm_num [Series.values, lastVal]
  · obtain ⟨c, hc, habs, _, hpos⟩ :=
      C2_strong_better_sign
        [("train/loss_viewpoint - psnr", [(1, 20)])]
        [("train/loss_viewpoint - psnr", [(1, 25)])]
        "train/loss_viewpoint - psnr" [(1, 20)] [(1, 25)]
        (by decide) (by decide) (by decide) (by decide) (by decide)
    refine ⟨c, hc, (hpos (by decide)).mpr ?_⟩
    rw [habs]
    norm_num [Series.values, lastVal]

/-- C10: when the weak and strong final values coincide, the absolute
improvement is 0 and `strong_better` is false under both sign conventions
(with or without "psnr" in the metric name). -/
theorem C10_zero_improvement_not_better
    (w s : Snapshot) (m : String) (wser sser : Series)
    (hm : m ∈ metrics_to_analyze)
    (hw : w.lookup m = some wser) (hs : s.lookup m = some sser)
    (hwne : wser ≠ []) (hsne : sser ≠ [])
    (heq : lastVal wser.values = lastVal sser.values) :
    ∃ c : Comparison,
      (compute_statistics (some w) (some s)).comparison.lookup m = some (some c) ∧
      c.absolute_improvement = 0 ∧ c.strong_better = false := by
  refine ⟨comparisonOf m wser.values sser.values, ?_, ?_, ?_⟩
  · unfold compute_statistics
    rw [lookup_map_self _ _ _ hm,
      compRec_eq_some w s m wser sser hw hs hwne hsne]
  · simp [comparisonOf, heq]
  · cases hp : containsSub "psnr" m <;> simp [comparisonOf, heq, hp]

/-- C10 witness: equal final value 7 on the PSNR-named metric
`train/loss_viewpoint - psnr`. -/
theorem C10_zero_improvement_not_better_witness :
    ∃ c : Comparison,
      (compute_statistics (some [("train/loss_viewpoint - psnr", [(1, 7)])])
          (some [("train/loss_viewpoint - psnr", [(2, 7)])])).comparison.lookup
        "train/loss_viewpoint - psnr" = some (some c) ∧
      c.absolute_improvement = 0 ∧ c.strong_better = false := by
  exact C10_zero_improvement_not_better
    [("train/loss_viewpoint - psnr", [(1, 7)])]
    [("train/loss_viewpoint - psnr", [(2, 7)])]
    "train/loss_viewpoint - psnr" [(1, 7)] [(2, 7)]
    (by decide) (by decide) (by decide) (by decide) (by decide) (by decide)

/-- C3 counterexample: when neither directory yields any metric data the
Comparator's main prints the no-data notice and returns early, producing no
plot — but it does NOT write the (empty) comparison summary document,
refuting the claim that the JSON file is still written. -/
theorem C3_counterexample_no_summary_written :
    (compare_main true none none).summaryWritten = false ∧
    (compare_main true none none).noDataNotice = true ∧
    (compare_main true none none).plotDrawn = false ∧
    (compare_main true none none).stats = none :=
  ⟨rfl, rfl, rfl, rfl⟩

/-- C3 (amended): when neither the weak nor the strong directory yields any
metric data, the Comparator's main completes without raising (the embedding
is a total function), prints the clear no-data notice, produces no plot
content, and writes nothing at all — in particular it does not write the
comparison summary document, returning before any output is produced. -/
theorem C3_no_data_early_return (tb : Bool) (weakDir strongDir : Option Snapshot)
    (hw : pyFalsy (extract_tensorboard_data tb "weak" weakDir).1 = true)
    (hs : pyFalsy (extract_tensorboard_data tb "strong" strongDir).1 = true) :
    (compare_main tb weakDir strongDir).noDataNotice = true ∧
    "No tensorboard data found in either directory!" ∈
      (compare_main tb weakDir strongDir).messages ∧
    (compare_main tb weakDir strongDir).plotDrawn = false ∧
    (compare_main tb weakDir strongDir).summaryWritten = false ∧
    (compare_main tb weakDir strongDir).stats = none := by
  unfold compare_main
  simp [hw, hs]

/-- C3 witness: both directories hold no event files (library available). -/
theorem C3_no_data_early_return_witness :
    (compare_main true none none).noDataNotice = true ∧
    "No tensorboard data found in either directory!" ∈
      (compare_main true none none).messages ∧
    (compare_main true none none).plotDrawn = false ∧
    (compare_main true none none).summaryWritten = false ∧
    (compare_main true none none).stats = none :=
  C3_no_data_early_return true none none rfl rfl

/-- C4: a metric of the fixed list absent from both snapshots has no
non-empty comparison entry (and the embedding is total, so nothing is
raised); a metric present with a non-empty series in exactly one snapshot
populates only that side's summary, leaves the comparison entry empty, and
is skipped by the printed summary table. -/
theorem C4_absent_and_one_sided_metrics
    (weak strong : Option Snapshot) (m : String) (hm : m ∈ metrics_to_analyze) :
    ((metricPresent weak m = false ∧ metricPresent strong m = false →
      (compute_statistics weak strong).comparison.lookup m = some none ∧
      (compute_statistics weak strong).weak_supervision.lookup m = some none ∧
      (compute_statistics weak strong).strong_supervision.lookup m = some none))
  ∧ (∀ (sn : Snapshot) (ser : Series), weak = some sn → sn.lookup m = some ser →
      ser ≠ [] → metricNonEmpty strong m = false →
      (compute_statistics weak strong).weak_supervision.lookup m =
        some (some (summaryOf ser.values)) ∧
      (compute_statistics weak strong).strong_supervision.lookup m = some none ∧
      (compute_statistics weak strong).comparison.lookup m = some none ∧
      m ∉ printedMetrics (compute_statistics weak strong))
  ∧ (∀ (sn : Snapshot) (ser : Series), strong = some sn → sn.lookup m = some ser →
      ser ≠ [] → metricNonEmpty weak m = false →
      (compute_statistics weak strong).strong_supervision.lookup m =
        some (some (summaryOf ser.values)) ∧
      (compute_statistics weak strong).weak_supervision.lookup m = some none ∧
      (compute_statistics weak strong).comparison.lookup m = some none ∧
      m ∉ printedMetrics (compute_statistics weak strong)) := by
  refine ⟨?_, ?_, ?_⟩
  · rintro ⟨hpw, hps⟩
    have hnw := metricNonEmpty_of_not_present weak m hpw
    have hns := metricNonEmpty_of_not_present strong m hps
    unfold compute_statistics
    rw [lookup_map_self _ _ _ hm, lookup_map_self _ _ _ hm,
      lookup_map_self _ _ _ hm, compRec_eq_none weak strong m (Or.inl hnw),
      sideStats_eq_none weak m hnw, sideStats_eq_none strong m hns]
    exact ⟨rfl, rfl, rfl⟩
  · rintro sn ser rfl hser hne hns
    have hcomp : compRec (some sn) strong m = none :=
      compRec_eq_none (some sn) strong m (Or.inr hns)
    have hlook : (compute_statistics (some sn) strong).comparison.lookup m =
        some none := by
      unfold compute_statistics
      rw [lookup_map_self _ _ _ hm, hcomp]
    refine ⟨?_, ?_, hlook, not_printed_of_comp_none _ m hlook⟩
    · unfold compute_statistics
      rw [lookup_map_self _ _ _ hm, sideStats_eq_some sn m ser hser hne]
    · unfold compute_statistics
      rw [lookup_map_self _ _ _ hm, sideStats_eq_none strong m hns]
  · rintro sn ser rfl hser hne hnw
    have hcomp : compRec weak (some sn) m = none :=
      compRec_eq_none weak (some sn) m (Or.inl hnw)
    have hlook : (compute_statistics weak (some sn)).comparison.lookup m =
        some none := by
      unfold compute_statistics
      rw [lookup_map_self _ _ _ hm, hcomp]
    refine ⟨?_, ?_, hlook, not_printed_of_comp_none _ m hlook⟩
    · unfold compute_statistics
      rw [lookup_map_self _ _ _ hm, sideStats_eq_some sn m ser hser hne]
    · unfold compute_statistics
      rw [lookup_map_self _ _ _ hm, sideStats_eq_none weak m hnw]

/-- C4 witness: `total_points` absent from both empty snapshots, and
`train_loss_patches/l1_loss` present only on the weak side. -/
theorem C4_absent_and_one_sided_metrics_witness :
    ((compute_statistics (some []) (some [])).comparison.lookup
        "total_points" = some none ∧
      (compute_statistics (some []) (some [])).weak_supervision.lookup
        "total_points" = some none ∧
      (compute_statistics (some []) (some [])).strong_supervision.lookup
        "total_points" = some none) ∧
    ((compute_statistics (some [("train_loss_patches/l1_loss", [(3, 4)])])
          none).weak_supervision.lookup "train_loss_patches/l1_loss" =
        some (some (summaryOf [4])) ∧
      (compute_statistics (some [("train_loss_patches/l1_loss", [(3, 4)])])
          none).strong_supervision.lookup "train_loss_patches/l1_loss" =
        some none ∧
      (compute_statistics (some [("train_loss_patches/l1_loss", [(3, 4)])])
          none).comparison.lookup "train_loss_patches/l1_loss" = some none ∧
      "train_loss_patches/l1_loss" ∉ printedMetrics
        (compute_statistics (some [("train_loss_patches/l1_loss", [(3, 4)])])
          none)) := by
  constructor
  · exact (C4_absent_and_one_sided_metrics (some []) (some []) "total_points"
      (by decide)).1 ⟨rfl, rfl⟩
  · exact (C4_absent_and_one_sided_metrics
      (some [("train_loss_patches/l1_loss", [(3, 4)])]) none
      "train_loss_patches/l1_loss" (by decide)).2.1
      [("train_loss_patches/l1_loss", [(3, 4)])] [(3, 4)]
      rfl (by decide) (by decide) rfl

/-- C5 counterexample: with the tensorboard library unavailable, the Live
Monitor's reader returns an absent result but prints NOTHING (its
`except ImportError` handler is `pass`), refuting the claim that the
unavailability is reported once by both readers. -/
theorem C5_counterexample_monitor_reports_nothing :
    get_latest_metrics false (some [("total_points", [(1, 1)])]) = (none, []) ∧
    (get_latest_metrics false (some [("total_points", [(1, 1)])])).2.length = 0 :=
  ⟨rfl, rfl⟩

/-- C5 (amended): when the tensorboard library is unavailable, both readers
return an absent result without raising; the Comparator's reader prints the
install notice once per invocation, while the Live Monitor's reader prints
nothing at all. -/
theorem C5_library_unavailable_absent_result (logdir : String)
    (d : Option Snapshot) :
    extract_tensorboard_data false logdir d =
      (none, ["Please install tensorboard: pip install tensorboard"]) ∧
    get_latest_metrics false d = (none, []) :=
  ⟨rfl, rfl⟩

/-- C5 witness: a concrete directory snapshot with one populated tag. -/
theorem C5_library_unavailable_absent_result_witness :
    extract_tensorboard_data false "weak" (some [("total_points", [(1, 2)])]) =
      (none, ["Please install tensorboard: pip install tensorboard"]) ∧
    get_latest_metrics false (some [("total_points", [(1, 2)])]) = (none, []) :=
  C5_library_unavailable_absent_result "weak" (some [("total_points", [(1, 2)])])

/-- C6: for every non-empty metric series, the populated summary record has
final_value the last element, min_value the minimum (an element and a lower
bound), max_value the maximum (an element and an upper bound), mean_value
the arithmetic mean, and total_iterations the length — for the weak and the
strong section alike; in particular over the values 1, 2, 3 the summary is
final 3, min 1, max 3, mean 2, count 3. -/
theorem C6_summary_statistics (sn : Snapshot) (other : Option Snapshot)
    (m : String) (ser : Series)
    (hm : m ∈ metrics_to_analyze) (hl : sn.lookup m = some ser)
    (hne : ser ≠ []) :
    (∃ su : SummaryStats,
      (compute_statistics (some sn) other).weak_supervision.lookup m =
        some (some su) ∧
      ser.values.getLast? = some su.final_value ∧
      su.min_value ∈ ser.values ∧ (∀ y ∈ ser.values, su.min_value ≤ y) ∧
      su.max_value ∈ ser.values ∧ (∀ y ∈ ser.values, y ≤ su.max_value) ∧
      su.mean_value * (ser.values.length : ℚ) = ser.values.sum ∧
      su.total_iterations = ser.values.length) ∧
    (∃ su : SummaryStats,
      (compute_statistics other (some sn)).strong_supervision.lookup m =
        some (some su) ∧
      ser.values.getLast? = some su.final_value ∧
      su.min_value ∈ ser.values ∧ (∀ y ∈ ser.values, su.min_value ≤ y) ∧
      su.max_value ∈ ser.values ∧ (∀ y ∈ ser.values, y ≤ su.max_value) ∧
      su.mean_value * (ser.values.length : ℚ) = ser.values.sum ∧
      su.total_iterations = ser.values.length) ∧
    (∃ su3 : SummaryStats,
      (compute_statistics (some [("total_points", [(1, 1), (2, 2), (3, 3)])])
        none).weak_supervision.lookup "total_points" = some (some su3) ∧
      su3.final_value = 3 ∧ su3.min_value = 1 ∧ su3.max_value = 3 ∧
      su3.mean_value = 2 ∧ su3.total_iterations = 3) := by
  have hvne : ser.values ≠ [] := by
    rw [Series.values, Ne, List.map_eq_nil_iff]
    exact hne
  refine ⟨⟨summaryOf ser.values, ?_, ?_, listMin_mem _ hvne,
      fun y hy => listMin_le _ y hy, listMax_mem _ hvne,
      fun y hy => le_listMax _ y hy, listMean_mul_length _ hvne, rfl⟩,
    ⟨summaryOf ser.values, ?_, ?_, listMin_mem _ hvne,
      fun y hy => listMin_le _ y hy, listMax_mem _ hvne,
      fun y hy => le_listMax _ y hy, listMean_mul_length _ hvne, rfl⟩,
    ⟨summaryOf (Series.values [(1, 1), (2, 2), (3, 3)]), ?_, ?_, ?_, ?_, ?_, rfl⟩⟩
  · unfold compute_statistics
    rw [lookup_map_self _ _ _ hm, sideStats_eq_some sn m ser hl hne]
  · rw [lastVal_getLast ser.values hvne]; rfl
  · unfold compute_statistics
    rw [lookup_map_self _ _ _ hm, sideStats_eq_some sn m ser hl hne]
  · rw [lastVal_getLast ser.values hvne]; rfl
  · unfold compute_statistics
    rw [lookup_map_self _ _ _ (show "total_points" ∈ metrics_to_analyze by decide),
      sideStats_eq_some _ _ [(1, 1), (2, 2), (3, 3)] (by decide) (by decide)]
  · norm_num [summaryOf, Series.values, lastVal]
  · norm_num [summaryOf, Series.values, listMin, List.foldl, min_def]
  · norm_num [summaryOf, Series.values, listMax, List.foldl, max_def]
  · norm_num [summaryOf, Series.values, listMean]

/-- C6 witness: the series with values 1, 2, 3 under the metric
`total_points` on the weak side. -/
theorem C6_summary_statistics_witness :
    ∃ su : SummaryStats,
      (compute_statistics (some [("total_points", [(1, 1), (2, 2), (3, 3)])])
        none).weak_supervision.lookup "total_points" = some (some su) ∧
      su.final_value = 3 ∧ su.min_value = 1 ∧ su.max_value = 3 ∧
      su.mean_value = 2 ∧ su.total_iterations = 3 :=
  (C6_summary_statistics [("total_points", [(1, 1), (2, 2), (3, 3)])] none
    "total_points" [(1, 1), (2, 2), (3, 3)]
    (by decide) (by decide) (by decide)).2.2

/-- C7 counterexample: a mismatch in the override round-trip checks of the
contract check is a BARE Python `assert` — it raises an assertion failure
whose message is empty and in particular does not name the violated field
(here `depth_weight`). -/
theorem C7_counterexample_bare_assertion :
    check_custom_values { customOptimizationParams with depth_weight := 999 } =
      Except.error "" ∧
    containsSub "depth_weight" "" = false := by
  constructor
  · norm_num [check_custom_values, customOptimizationParams]
  · rfl

/-- C7 (amended): parsing an empty argument list yields the nine documented
defaults, parsing the documented override list round-trips each of the nine
options with no cross-contamination, and the contract check accepts both;
a default-value mismatch raises an assertion failure whose message reports
the expected and actual values, and an override mismatch raises a bare
assertion failure with an empty message. -/
theorem C7_contract_check_roundtrip :
    parse_args [] defaultOptimizationParams = some defaultOptimizationParams ∧
    parse_args test_args_custom defaultOptimizationParams =
      some customOptimizationParams ∧
    test_gt_depth_args = Except.ok () ∧
    check_default_values (op_extract defaultOptimizationParams) = Except.ok () ∧
    check_custom_values (op_extract customOptimizationParams) = Except.ok () ∧
    check_default_values { defaultOptimizationParams with depth_weight := 999 } =
      Except.error ("Expected 2.0, got " ++ toString (999 : ℚ)) ∧
    check_custom_values { customOptimizationParams with depth_warmup := 999 } =
      Except.error "" := by
  have hempty : parse_args [] defaultOptimizationParams =
      some defaultOptimizationParams := rfl
  have hsteps : parse_args test_args_custom defaultOptimizationParams =
      some { depth_dir := "/path/to/depths", depth_format := "exr",
             depth_units := "millimeters",
             depth_weight := ((3 : ℕ) : ℚ) + ((0 : ℕ) : ℚ) / 10 ^ 1,
             depth_loss := "l1",
             depth_grad_weight := ((0 : ℕ) : ℚ) + ((2 : ℕ) : ℚ) / 10 ^ 1,
             depth_warmup := ((1000 : ℕ) : ℤ),
             depth_valid_min := ((0 : ℕ) : ℚ) + ((1 : ℕ) : ℚ) / 10 ^ 1,
             depth_valid_max := ((100 : ℕ) : ℚ) + ((0 : ℕ) : ℚ) / 10 ^ 1 } := rfl
  have hcustom : parse_args test_args_custom defaultOptimizationParams =
      some customOptimizationParams := by
    rw [hsteps, customOptimizationParams]
    norm_num
  have hdef : check_default_values (op_extract defaultOptimizationParams) =
      Except.ok () := by
    norm_num [check_default_values, op_extract, defaultOptimizationParams]
  have hcus : check_custom_values (op_extract customOptimizationParams) =
      Except.ok () := by
    norm_num [check_custom_values, op_extract, customOptimizationParams]
  refine ⟨hempty, hcustom, ?_, hdef, hcus, ?_, ?_⟩
  · unfold test_gt_depth_args
    simp only [hempty, hdef, hcustom, hcus]
  · norm_num [check_default_values, defaultOptimizationParams]
  · norm_num [check_custom_values, customOptimizationParams]

/-- C8: whenever one of the three required input paths does not exist, the
Run Orchestrator reports a message containing the missing path and returns
without launching any subprocess. -/
theorem C8_missing_path_aborts (se de ge : Bool)
    (scene depth_images gt_depth : String)
    (h : se = false ∨ de = false ∨ ge = false) :
    (orchestrator_main se de ge scene depth_images gt_depth).launched = false ∧
    ∃ p, ((se = false ∧ p = scene) ∨ (de = false ∧ p = depth_images) ∨
          (ge = false ∧ p = gt_depth)) ∧
      ∃ msg ∈ (orchestrator_main se de ge scene depth_images gt_depth).messages,
        containsSub p msg = true := by
  cases se with
  | false =>
    refine ⟨rfl, scene, Or.inl ⟨rfl, rfl⟩,
      "Scene path does not exist: " ++ scene, ?_,
      containsSub_append_self scene "Scene path does not exist: "⟩
    simp [orchestrator_main]
  | true =>
    cases de with
    | false =>
      refine ⟨rfl, depth_images, Or.inr (Or.inl ⟨rfl, rfl⟩),
        "Depth images path does not exist: " ++ depth_images, ?_,
        containsSub_append_self depth_images "Depth images path does not exist: "⟩
      simp [orchestrator_main]
    | true =>
      cases ge with
      | false =>
        refine ⟨rfl, gt_depth, Or.inr (Or.inr ⟨rfl, rfl⟩),
          "GT depth path does not exist: " ++ gt_depth, ?_,
          containsSub_append_self gt_depth "GT depth path does not exist: "⟩
        simp [orchestrator_main]
      | true => rcases h with h | h | h <;> cases h

/-- C8 witness: the ground-truth depth path is missing. -/
theorem C8_missing_path_aborts_witness :
    (orchestrator_main true true false "sc" "di" "gt").launched = false ∧
    ∃ p, ((true = false ∧ p = "sc") ∨ (true = false ∧ p = "di") ∨
          (false = false ∧ p = "gt")) ∧
      ∃ msg ∈ (orchestrator_main true true false "sc" "di" "gt").messages,
        containsSub p msg = true :=
  C8_missing_path_aborts true true false "sc" "di" "gt" (Or.inr (Or.inr rfl))

/-- C9: the serialized statistics record always has exactly the three
top-level sections, each mapping every one of the five fixed metric names to
an entry; an entry is the empty record precisely in the no-data cases — keys
are never omitted. -/
theorem C9_summary_document_shape (weak strong : Option Snapshot) (m : String)
    (hm : m ∈ metrics_to_analyze) :
    (summarySections (compute_statistics weak strong)).map Prod.fst =
      ["weak_supervision", "strong_supervision", "comparison"] ∧
    (compute_statistics weak strong).weak_supervision.map Prod.fst =
      metrics_to_analyze ∧
    (compute_statistics weak strong).strong_supervision.map Prod.fst =
      metrics_to_analyze ∧
    (compute_statistics weak strong).comparison.map Prod.fst =
      metrics_to_analyze ∧
    (metricNonEmpty weak m = false →
      (compute_statistics weak strong).weak_supervision.lookup m = some none) ∧
    (metricNonEmpty strong m = false →
      (compute_statistics weak strong).strong_supervision.lookup m = some none) ∧
    ((metricNonEmpty weak m = false ∨ metricNonEmpty strong m = false) →
      (compute_statistics weak strong).comparison.lookup m = some none) := by
  refine ⟨rfl, map_fst_map_self _ _, map_fst_map_self _ _, map_fst_map_self _ _,
    ?_, ?_, ?_⟩
  · intro h
    unfold compute_statistics
    rw [lookup_map_self _ _ _ hm, sideStats_eq_none weak m h]
  · intro h
    unfold compute_statistics
    rw [lookup_map_self _ _ _ hm, sideStats_eq_none strong m h]
  · intro h
    unfold compute_statistics
    rw [lookup_map_self _ _ _ hm, compRec_eq_none weak strong m h]

/-- C9 witness: both snapshots absent, metric `total_points`. -/
theorem C9_summary_document_shape_witness :
    (summarySections (compute_statistics none none)).map Prod.fst =
      ["weak_supervision", "strong_supervision", "comparison"] ∧
    (compute_statistics none none).weak_supervision.map Prod.fst =
      metrics_to_analyze ∧
    (compute_statistics none none).strong_supervision.map Prod.fst =
      metrics_to_analyze ∧
    (compute_statistics none none).comparison.map Prod.fst =
      metrics_to_analyze ∧
    (metricNonEmpty (none : Option Snapshot) "total_points" = false →
      (compute_statistics none none).weak_supervision.lookup "total_points" =
        some none) ∧
    (metricNonEmpty (none : Option Snapshot) "total_points" = false →
      (compute_statistics none none).strong_supervision.lookup "total_points" =
        some none) ∧
    ((metricNonEmpty (none : Option Snapshot) "total_points" = false ∨
      metricNonEmpty (none : Option Snapshot) "total_points" = false) →
      (compute_statistics none none).comparison.lookup "total_points" =
        some none) :=
  C9_summary_document_shape none none "total_points" (by decide)

end DepthComparison
